import Mathlib

/-!
Verification of the e-commerce Playwright test-suite helpers.

Shallow embedding of:
* `retryOnError`, `validateSchema`, `assertResponseTime` from `src/utils/apiTestUtils.ts`
* the environment configuration (`apiConfig`) from the API config module
* the `ApiPage` HTTP wrapper (`get/post/put/delete` response handling and
  `validateResponse`)
* the fallback-selector page-object strategies (`CheckoutPage.proceedToCheckout`,
  `ProductBrowsingPage.filterByCategory`).

JavaScript errors are modelled by their message (`Err`); promise rejection /
`throw` is modelled by `Except Err`.  Time-dependent effects (`setTimeout`
backoff sleeps, page waits) are recorded as explicit events so that the
schedule of sleeps is part of the observable trace.
-/

set_option autoImplicit false

namespace ECom

/-- A JavaScript `Error` value, identified by its `message` field. -/
structure Err where
  message : String
deriving DecidableEq, Repr

/-! ### String containment, i.e. JavaScript `String.prototype.includes` -/

/-- `listIsPrefix sub l` : `sub` is a prefix of `l` (character lists). -/
def listIsPrefix : List Char → List Char → Bool
  | [], _ => true
  | _ :: _, [] => false
  | a :: as, b :: bs => a == b && listIsPrefix as bs

/-- `listContains l sub` : `sub` occurs contiguously inside `l`. -/
def listContains : List Char → List Char → Bool
  | l, sub =>
    match l with
    | [] => sub.isEmpty
    | _ :: rest => listIsPrefix sub l || listContains rest sub

/-- JavaScript `s.includes(sub)`. -/
def strIncludes (s sub : String) : Bool :=
  listContains s.data sub.data

theorem listIsPrefix_refl (l : List Char) : listIsPrefix l l = true := by
  induction l with
  | nil => rfl
  | cons a as ih => simp [listIsPrefix, ih]

theorem listIsPrefix_append (l post : List Char) :
    listIsPrefix l (l ++ post) = true := by
  induction l with
  | nil => rfl
  | cons a as ih => simp [listIsPrefix, ih]

theorem listContains_here (l sub post : List Char) (h : l = sub ++ post) :
    listContains l sub = true := by
  subst h
  cases sub with
  | nil => cases post <;> simp [listContains, String.isEmpty, listIsPrefix]
  | cons c cs =>
    simp [listContains]
    left
    exact listIsPrefix_append (c :: cs) post

theorem listContains_append_middle (pre sub post : List Char) :
    listContains (pre ++ sub ++ post) sub = true := by
  induction pre with
  | nil => exact listContains_here (sub ++ post) sub post rfl
  | cons c cs ih =>
    show listContains (c :: (cs ++ sub ++ post)) sub = true
    simp only [listContains]
    cases h : listIsPrefix sub (c :: (cs ++ sub ++ post)) with
    | true => simp
    | false => simpa [h] using ih

/-- A string built as `pre ++ mid ++ post` contains `mid`. -/
theorem strIncludes_append_middle (pre mid post : String) :
    strIncludes (pre ++ mid ++ post) mid = true := by
  show listContains (pre ++ mid ++ post).data mid.data = true
  rw [String.data_append, String.data_append]
  exact listContains_append_middle pre.data mid.data post.data

/-- A string built as `pre ++ suf` contains `suf`. -/
theorem strIncludes_append_right (pre suf : String) :
    strIncludes (pre ++ suf) suf = true := by
  have h := strIncludes_append_middle pre suf ""
  simpa using h

/-! ### `retryOnError` (src/utils/apiTestUtils.ts)

```ts
export async function retryOnError<T>(
  fn: () => Promise<T>,
  retries: number = apiConfig.authRetryAttempts,
  retryableErrors: string[] = ['Token expired', 'Rate limit exceeded']
): Promise<T> {
  let lastError: Error;
  for (let attempt = 0; attempt <= retries; attempt++) {
    try {
      return await fn();
    } catch (error) {
      lastError = error as Error;
      const shouldRetry = retryableErrors.some(errMsg =>
        lastError.message.includes(errMsg)
      );
      if (!shouldRetry || attempt === retries) {
        throw lastError;
      }
      await new Promise(resolve => setTimeout(resolve, Math.pow(2, attempt) * 100));
    }
  }
  throw lastError!;
}
```

The async operation `fn` is modelled by the outcome of each invocation:
`fn k` is what the `k`-th invocation (0-based) returns or throws.  The
execution trace records one `call k` event per invocation of `fn` and one
`sleep ms` event per `setTimeout` backoff wait, in order. -/

/-- One observable event of `retryOnError`: an invocation of `fn`, or a
backoff sleep of the given number of milliseconds. -/
inductive REvent where
  | call : Nat → REvent
  | sleep : Nat → REvent
deriving DecidableEq, Repr

/-- The trace of a `retryOnError` run: the terminal outcome (result or the
rethrown error) together with the ordered list of events. -/
structure RetryTrace (T : Type) where
  result : Except Err T
  events : List REvent
deriving Repr

/-- `shouldRetry` from the source: some retryable message is contained in the
thrown error's message. -/
def shouldRetry (retryableErrors : List String) (e : Err) : Bool :=
  retryableErrors.any (fun errMsg => strIncludes e.message errMsg)

/-- The loop of `retryOnError`, at loop counter `attempt` with
`rem = retries - attempt` iterations after the current one still allowed.
When `rem = 0` the test `!shouldRetry || attempt === retries` is true whatever
`shouldRetry` evaluates to, so the error is rethrown in both branches. -/
def retryGo {T : Type} (fn : Nat → Except Err T) (retryableErrors : List String) :
    Nat → Nat → RetryTrace T
  | attempt, 0 =>
    match fn attempt with
    | Except.ok v => ⟨Except.ok v, [REvent.call attempt]⟩
    | Except.error e => ⟨Except.error e, [REvent.call attempt]⟩
  | attempt, rem' + 1 =>
    match fn attempt with
    | Except.ok v => ⟨Except.ok v, [REvent.call attempt]⟩
    | Except.error e =>
      if shouldRetry retryableErrors e then
        let t := retryGo fn retryableErrors (attempt + 1) rem'
        ⟨t.result, REvent.call attempt :: REvent.sleep (2 ^ attempt * 100) :: t.events⟩
      else ⟨Except.error e, [REvent.call attempt]⟩

/-- `retryOnError fn retries retryableErrors`, as a trace. -/
def retryOnError {T : Type} (fn : Nat → Except Err T) (retries : Nat)
    (retryableErrors : List String) : RetryTrace T :=
  retryGo fn retryableErrors 0 retries

/-- Number of invocations of `fn` in a trace. -/
def numCalls {T : Type} (t : RetryTrace T) : Nat :=
  (t.events.filterMap (fun e => match e with
    | REvent.call k => some k
    | REvent.sleep _ => none)).length

/-- The backoff sleeps of a trace, in order, in milliseconds. -/
def sleepsOf {T : Type} (t : RetryTrace T) : List Nat :=
  t.events.filterMap (fun e => match e with
    | REvent.call _ => none
    | REvent.sleep ms => some ms)

/-- Shape of every `retryGo` trace: `m` retried attempts (each a call followed
by its backoff sleep) and then one final call. -/
theorem retryGo_shape {T : Type} (fn : Nat → Except Err T) (rs : List String) :
    ∀ rem attempt, ∃ m, m ≤ rem ∧
      (retryGo fn rs attempt rem).events =
        (List.range' attempt m).flatMap
          (fun k => [REvent.call k, REvent.sleep (2 ^ k * 100)])
        ++ [REvent.call (attempt + m)] := by
  intro rem
  induction rem with
  | zero =>
    intro attempt
    refine ⟨0, Nat.le_refl 0, ?_⟩
    simp only [retryGo]
    cases fn attempt with
    | ok v => simp
    | error e => simp
  | succ rem' ih =>
    intro attempt
    simp only [retryGo]
    cases fn attempt with
    | ok v => exact ⟨0, Nat.zero_le _, by simp⟩
    | error e =>
      cases h : shouldRetry rs e with
      | false => exact ⟨0, Nat.zero_le _, by simp [h]⟩
      | true =>
        obtain ⟨m, hm, hev⟩ := ih (attempt + 1)
        refine ⟨m + 1, Nat.succ_le_succ hm, ?_⟩
        simp only [List.range'_succ, List.flatMap_cons, hev, h, if_pos]
        simp [Nat.add_right_comm attempt 1 m, Nat.add_assoc, List.append_assoc]

/-- Projection of the call events of an event list. -/
def callsIn (evs : List REvent) : List Nat :=
  evs.filterMap (fun e => match e with
    | REvent.call k => some k
    | REvent.sleep _ => none)

theorem numCalls_eq_callsIn {T : Type} (t : RetryTrace T) :
    numCalls t = (callsIn t.events).length := rfl

theorem callsIn_shape (m : Nat) : ∀ attempt,
    callsIn ((List.range' attempt m).flatMap
        (fun k => [REvent.call k, REvent.sleep (2 ^ k * 100)])
      ++ [REvent.call (attempt + m)]) = List.range' attempt m ++ [attempt + m] := by
  induction m with
  | zero => intro attempt; simp [callsIn]
  | succ m ih =>
    intro attempt
    have harith : attempt + (m + 1) = attempt + 1 + m := by omega
    rw [harith]
    simp only [List.range'_succ, List.flatMap_cons, List.cons_append, callsIn,
      List.filterMap_cons]
    have := ih (attempt + 1)
    simp only [callsIn] at this
    simp [this]

theorem sleepsOf_shape {T : Type} (r : Except Err T) (m : Nat) : ∀ attempt,
    sleepsOf (⟨r, (List.range' attempt m).flatMap
        (fun k => [REvent.call k, REvent.sleep (2 ^ k * 100)])
      ++ [REvent.call (attempt + m)]⟩ : RetryTrace T) =
      (List.range' attempt m).map (fun k => 2 ^ k * 100) := by
  induction m with
  | zero => intro attempt; simp [sleepsOf]
  | succ m ih =>
    intro attempt
    have harith : attempt + (m + 1) = attempt + 1 + m := by omega
    rw [harith]
    simp only [List.range'_succ, List.flatMap_cons, List.cons_append, sleepsOf,
      List.filterMap_cons]
    have := ih (attempt + 1)
    simp only [sleepsOf] at this
    simp [this]

theorem head_shape (attempt m : Nat) :
    ((List.range' attempt m).flatMap
        (fun k => [REvent.call k, REvent.sleep (2 ^ k * 100)])
      ++ [REvent.call (attempt + m)]).head? = some (REvent.call attempt) := by
  cases m with
  | zero => simp
  | succ m => simp [List.range'_succ]

/-- C1: `retryOnError(fn, retries, retryableErrors)` invokes `fn` at most
`retries + 1` times, and the first event of the run is the first invocation
of `fn` (no backoff sleep precedes it). -/
theorem retryOnError_call_bound {T : Type} (fn : Nat → Except Err T)
    (retries : Nat) (rs : List String) :
    numCalls (retryOnError fn retries rs) ≤ retries + 1 ∧
    (retryOnError fn retries rs).events.head? = some (REvent.call 0) := by
  obtain ⟨m, hm, hev⟩ := retryGo_shape fn rs retries 0
  constructor
  · rw [numCalls_eq_callsIn, show retryOnError fn retries rs = retryGo fn rs 0 retries from rfl,
      hev, callsIn_shape]
    simp
    omega
  · rw [show retryOnError fn retries rs = retryGo fn rs 0 retries from rfl, hev]
    exact head_shape 0 m

theorem retryOnError_def {T : Type} (fn : Nat → Except Err T) (retries : Nat)
    (rs : List String) : retryOnError fn retries rs = retryGo fn rs 0 retries := rfl

/-- C3: every run of `retryOnError` consists of `m ≤ retries` retried attempts,
the `k`-th (0-based) followed by a backoff sleep of exactly `2^k * 100` ms,
and then one final attempt with no sleep after it; hence the sleeps are
`2^0*100, …, 2^(m-1)*100` in order, and with `retries = 0` there is exactly
one attempt and no sleep at all. -/
theorem retryOnError_backoff_schedule {T : Type} (fn : Nat → Except Err T)
    (retries : Nat) (rs : List String) :
    (∃ m, m ≤ retries ∧
      (retryOnError fn retries rs).events =
        (List.range' 0 m).flatMap
          (fun k => [REvent.call k, REvent.sleep (2 ^ k * 100)])
        ++ [REvent.call m] ∧
      sleepsOf (retryOnError fn retries rs) = (List.range m).map (fun k => 2 ^ k * 100) ∧
      numCalls (retryOnError fn retries rs) = m + 1)
    ∧ (retries = 0 →
        numCalls (retryOnError fn retries rs) = 1 ∧
        sleepsOf (retryOnError fn retries rs) = []) := by
  obtain ⟨m, hm, hev⟩ := retryGo_shape fn rs retries 0
  rw [Nat.zero_add] at hev
  have hev' : (retryOnError fn retries rs).events =
      (List.range' 0 m).flatMap (fun k => [REvent.call k, REvent.sleep (2 ^ k * 100)])
      ++ [REvent.call m] := by
    rw [retryOnError_def]; exact hev
  have hsleeps : sleepsOf (retryOnError fn retries rs) =
      (List.range m).map (fun k => 2 ^ k * 100) := by
    have h0 := sleepsOf_shape (T := T) (retryOnError fn retries rs).result m 0
    rw [Nat.zero_add] at h0
    rw [List.range_eq_range']
    calc sleepsOf (retryOnError fn retries rs)
        = sleepsOf (⟨(retryOnError fn retries rs).result,
            (List.range' 0 m).flatMap (fun k => [REvent.call k, REvent.sleep (2 ^ k * 100)])
            ++ [REvent.call m]⟩ : RetryTrace T) := by
          simp only [sleepsOf, hev']
      _ = (List.range' 0 m).map (fun k => 2 ^ k * 100) := h0
  have hcalls : numCalls (retryOnError fn retries rs) = m + 1 := by
    have h0 := callsIn_shape m 0
    rw [Nat.zero_add] at h0
    rw [numCalls_eq_callsIn, hev', h0]
    simp
  refine ⟨⟨m, hm, hev', hsleeps, hcalls⟩, ?_⟩
  intro h0
  subst h0
  have hm0 : m = 0 := Nat.le_zero.mp hm
  subst hm0
  exact ⟨hcalls, by simpa using hsleeps⟩

/-- C3 witness: with `retries = 0` the run makes exactly one attempt and
performs no backoff sleep. -/
theorem retryOnError_backoff_schedule_witness :
    numCalls (retryOnError (fun _ => Except.ok (0 : Nat)) 0 ["Token expired"]) = 1 ∧
    sleepsOf (retryOnError (fun _ => Except.ok (0 : Nat)) 0 ["Token expired"]) = [] :=
  (retryOnError_backoff_schedule (fun _ => Except.ok (0 : Nat)) 0 ["Token expired"]).2 rfl

/-- Terminal-outcome characterisation of the retry loop, generalised over the
starting loop counter. -/
theorem retryGo_result {T : Type} (fn : Nat → Except Err T) (rs : List String) :
    ∀ rem attempt,
    (∀ e, (retryGo fn rs attempt rem).result = Except.error e →
      ∃ j, attempt ≤ j ∧ j ≤ attempt + rem ∧ fn j = Except.error e ∧
        (shouldRetry rs e = false ∨ j = attempt + rem) ∧
        numCalls (retryGo fn rs attempt rem) = j - attempt + 1)
    ∧ (∀ v, (retryGo fn rs attempt rem).result = Except.ok v →
      ∃ j, attempt ≤ j ∧ j ≤ attempt + rem ∧ fn j = Except.ok v) := by
  intro rem
  induction rem with
  | zero =>
    intro attempt
    cases h : fn attempt with
    | ok v =>
      constructor
      · intro e he
        simp [retryGo, h] at he
      · intro v' hv
        simp [retryGo, h] at hv
        exact ⟨attempt, Nat.le_refl _, by omega, by rw [h, hv]⟩
    | error e' =>
      constructor
      · intro e he
        simp [retryGo, h] at he
        subst he
        exact ⟨attempt, Nat.le_refl _, by omega, h, Or.inr (by omega),
          by simp [numCalls, retryGo, h]⟩
      · intro v hv
        simp [retryGo, h] at hv
  | succ rem' ih =>
    intro attempt
    cases h : fn attempt with
    | ok v =>
      constructor
      · intro e he
        simp [retryGo, h] at he
      · intro v' hv
        simp [retryGo, h] at hv
        exact ⟨attempt, Nat.le_refl _, by omega, by rw [h, hv]⟩
    | error e' =>
      cases hr : shouldRetry rs e' with
      | false =>
        constructor
        · intro e he
          simp [retryGo, h, hr] at he
          subst he
          exact ⟨attempt, Nat.le_refl _, by omega, h, Or.inl hr,
            by simp [numCalls, retryGo, h, hr]⟩
        · intro v hv
          simp [retryGo, h, hr] at hv
      | true =>
        have hres : (retryGo fn rs attempt (rem' + 1)).result =
            (retryGo fn rs (attempt + 1) rem').result := by
          simp [retryGo, h, hr]
        have hnc : numCalls (retryGo fn rs attempt (rem' + 1)) =
            numCalls (retryGo fn rs (attempt + 1) rem') + 1 := by
          simp [numCalls, retryGo, h, hr, List.filterMap_cons]
        constructor
        · intro e he
          rw [hres] at he
          obtain ⟨j, hj1, hj2, hj3, hj4, hj5⟩ := (ih (attempt + 1)).1 e he
          refine ⟨j, by omega, by omega, hj3, ?_, by omega⟩
          cases hj4 with
          | inl hl => exact Or.inl hl
          | inr hrr => exact Or.inr (by omega)
        · intro v hv
          rw [hres] at hv
          obtain ⟨j, hj1, hj2, hj3⟩ := (ih (attempt + 1)).2 v hv
          exact ⟨j, by omega, by omega, hj3⟩

/-- C2: if `retryOnError` terminates with an error, that error is exactly the
value thrown by the last attempt `k` (unchanged, no wrapping), that attempt
was either non-retryable or the last allowed one (`k = retries`), and no
further attempt was made after it (`k + 1` calls in total); a non-error
terminal outcome is the successful result of some attempt. -/
theorem retryOnError_terminal_outcome {T : Type} (fn : Nat → Except Err T)
    (retries : Nat) (rs : List String) :
    (∀ e, (retryOnError fn retries rs).result = Except.error e →
      ∃ k, k ≤ retries ∧ fn k = Except.error e ∧
        (shouldRetry rs e = false ∨ k = retries) ∧
        numCalls (retryOnError fn retries rs) = k + 1)
    ∧ (∀ v, (retryOnError fn retries rs).result = Except.ok v →
      ∃ k, k ≤ retries ∧ fn k = Except.ok v) := by
  have h := retryGo_result fn rs retries 0
  rw [retryOnError_def]
  constructor
  · intro e he
    obtain ⟨j, _, hj2, hj3, hj4, hj5⟩ := h.1 e he
    refine ⟨j, by omega, hj3, ?_, by omega⟩
    cases hj4 with
    | inl hl => exact Or.inl hl
    | inr hrr => exact Or.inr (by omega)
  · intro v hv
    obtain ⟨j, _, hj2, hj3⟩ := h.2 v hv
    exact ⟨j, by omega, hj3⟩

/-- C2 witness: a non-retryable error ("boom" matches no retryable message)
is rethrown unchanged after exactly one attempt. -/
theorem retryOnError_terminal_outcome_witness :
    ∃ k, k ≤ 2 ∧
      (fun _ : Nat => (Except.error ⟨"boom"⟩ : Except Err Nat)) k = Except.error ⟨"boom"⟩ ∧
      (shouldRetry ["Rate limit exceeded"] ⟨"boom"⟩ = false ∨ k = 2) ∧
      numCalls (retryOnError (fun _ : Nat => (Except.error ⟨"boom"⟩ : Except Err Nat)) 2
        ["Rate limit exceeded"]) = k + 1 :=
  (retryOnError_terminal_outcome (fun _ : Nat => (Except.error ⟨"boom"⟩ : Except Err Nat)) 2
    ["Rate limit exceeded"]).1 ⟨"boom"⟩ rfl

/-! ### API configuration (`apiConfig` module)

```ts
const currentEnv = (process.env.API_ENV || 'dev') as Environment;
const environments: Record<Environment, EnvironmentConfig> = { local: …, dev: …, staging: …, production: … };
export const apiConfig = environments[currentEnv];
```

`process.env.API_ENV` is modelled as an `Option String` (`none` = unset).
A JavaScript object lookup on a missing key is `undefined`, modelled by
`Option`. -/

/-- One environment profile of the config module. -/
structure EnvironmentConfig where
  baseUrl : String
  timeoutMs : Nat
  maxResponseTimeMs : Nat
  authRetryAttempts : Nat
deriving DecidableEq, Repr

/-- The `environments` record: lookup by key, `none` (undefined) for any key
that is not one of the four profiles. -/
def environments (name : String) : Option EnvironmentConfig :=
  if name = "local" then some ⟨"http://localhost:3000/api", 5000, 1000, 1⟩
  else if name = "dev" then some ⟨"https://dev-api.example.com", 10000, 2000, 2⟩
  else if name = "staging" then some ⟨"https://staging-api.example.com", 10000, 2000, 2⟩
  else if name = "production" then some ⟨"https://api.example.com", 15000, 3000, 3⟩
  else none

/-- `process.env.API_ENV || 'dev'`: `undefined` and the empty string are both
falsy in JavaScript, so both fall back to `'dev'`. -/
def currentEnv (apiEnv : Option String) : String :=
  match apiEnv with
  | none => "dev"
  | some s => if s = "" then "dev" else s

/-- `export const apiConfig = environments[currentEnv]`, as a function of the
`API_ENV` environment variable. -/
def apiConfig (apiEnv : Option String) : Option EnvironmentConfig :=
  environments (currentEnv apiEnv)

/-- C7: for each of the four configured environment names, `apiConfig`
resolves to exactly that environment's fixed profile — all four fields come
from the single profile of that environment, never mixed across profiles. -/
theorem apiConfig_profiles :
    apiConfig (some "local") = some ⟨"http://localhost:3000/api", 5000, 1000, 1⟩ ∧
    apiConfig (some "dev") = some ⟨"https://dev-api.example.com", 10000, 2000, 2⟩ ∧
    apiConfig (some "staging") = some ⟨"https://staging-api.example.com", 10000, 2000, 2⟩ ∧
    apiConfig (some "production") = some ⟨"https://api.example.com", 15000, 3000, 3⟩ :=
  ⟨rfl, rfl, rfl, rfl⟩

/-- C10: a non-empty `API_ENV` outside the four profile names resolves to no
configuration at all (`undefined`); the `dev` fallback applies exactly when
`API_ENV` is unset or the empty string. -/
theorem apiConfig_unknown_env :
    (∀ s : String, s ≠ "" → s ≠ "local" → s ≠ "dev" → s ≠ "staging" → s ≠ "production" →
      apiConfig (some s) = none) ∧
    apiConfig none = some ⟨"https://dev-api.example.com", 10000, 2000, 2⟩ ∧
    apiConfig (some "") = some ⟨"https://dev-api.example.com", 10000, 2000, 2⟩ := by
  refine ⟨?_, rfl, rfl⟩
  intro s h0 h1 h2 h3 h4
  simp [apiConfig, currentEnv, environments, h0, h1, h2, h3, h4]

/-- C10 witness: `API_ENV=qa` leaves `apiConfig` undefined. -/
theorem apiConfig_unknown_env_witness : apiConfig (some "qa") = none :=
  apiConfig_unknown_env.1 "qa" (by decide) (by decide) (by decide) (by decide) (by decide)

/-! ### JSON values and `JSON.stringify`

Parsed JSON response bodies are modelled by the `Json` inductive; JavaScript
numbers are taken at the integers the test payloads use.  `Json.stringify`
follows `JSON.stringify` (compact form; the pretty-printing indentation of
`JSON.stringify(data, null, 2)` is whitespace only and is not modelled). -/

/-- A parsed JSON value. -/
inductive Json where
  | null : Json
  | bool : Bool → Json
  | num : Int → Json
  | str : String → Json
  | arr : List Json → Json
  | obj : List (String × Json) → Json

/-- JSON string escaping of one character. -/
def escapeChar (c : Char) : String :=
  if c = '"' then "\\\""
  else if c = '\\' then "\\\\"
  else if c = '\n' then "\\n"
  else if c = '\t' then "\\t"
  else if c = '\r' then "\\r"
  else String.singleton c

/-- JSON string escaping. -/
def escapeString (s : String) : String :=
  s.data.foldl (fun acc c => acc ++ escapeChar c) ""

mutual

/-- `JSON.stringify` (compact). -/
def Json.stringify : Json → String
  | Json.null => "null"
  | Json.bool b => if b then "true" else "false"
  | Json.num n => toString n
  | Json.str s => "\"" ++ escapeString s ++ "\""
  | Json.arr xs => "[" ++ stringifyArr xs ++ "]"
  | Json.obj fs => "\x7b" ++ stringifyObj fs ++ "\x7d"

/-- Comma-separated stringification of array elements. -/
def stringifyArr : List Json → String
  | [] => ""
  | [x] => Json.stringify x
  | x :: y :: xs => Json.stringify x ++ "," ++ stringifyArr (y :: xs)

/-- Comma-separated stringification of object fields. -/
def stringifyObj : List (String × Json) → String
  | [] => ""
  | [(k, v)] => "\"" ++ escapeString k ++ "\":" ++ Json.stringify v
  | (k, v) :: f :: fs =>
    "\"" ++ escapeString k ++ "\":" ++ Json.stringify v ++ "," ++ stringifyObj (f :: fs)

end

/-- Is this JSON value `null`? -/
def isNull : Json → Bool
  | Json.null => true
  | _ => false

/-- `fields[k]` for a JSON object's field list (first match). -/
def lookupField (k : String) : List (String × Json) → Option Json
  | [] => none
  | (k', v) :: rest => if k' = k then some v else lookupField k rest

/-- Join strings with a separator. -/
def joinSep (sep : String) : List String → String
  | [] => ""
  | [x] => x
  | x :: y :: xs => x ++ sep ++ joinSep sep (y :: xs)

/-! ### JSON-schema validation (Ajv fragment)

The repository compiles its schemas with `new Ajv({ allErrors: true })`.
The schemas in play (e.g. `productSchema`) use only: `type` (a single type
name or a union list), the OpenAPI `nullable` flag, `required`, and nested
`properties`.  This fragment of Ajv is modelled below; each violation yields
one `errorsText`-style line `data<instancePath> <message>`, and `allErrors`
means every violation is collected, not just the first. -/

/-- A JSON-schema `type` name. -/
inductive SchemaTy where
  | tnumber : SchemaTy
  | tstring : SchemaTy
  | tobject : SchemaTy
  | tarray : SchemaTy
  | tboolean : SchemaTy
deriving DecidableEq, Repr

/-- The textual name of a schema type, as it appears in Ajv messages. -/
def SchemaTy.name : SchemaTy → String
  | SchemaTy.tnumber => "number"
  | SchemaTy.tstring => "string"
  | SchemaTy.tobject => "object"
  | SchemaTy.tarray => "array"
  | SchemaTy.tboolean => "boolean"

/-- Does a JSON value have the given schema type? -/
def tyMatches : SchemaTy → Json → Bool
  | SchemaTy.tnumber, Json.num _ => true
  | SchemaTy.tstring, Json.str _ => true
  | SchemaTy.tobject, Json.obj _ => true
  | SchemaTy.tarray, Json.arr _ => true
  | SchemaTy.tboolean, Json.bool _ => true
  | _, _ => false

/-- A JSON schema of the fragment the repository uses:
`mk types nullable required properties`. -/
inductive JSchema where
  | mk : List SchemaTy → Bool → List String → List (String × JSchema) → JSchema

mutual

/-- Ajv validation (with `allErrors: true`) of `j` against `s` at instance
path `path`: the list of all `errorsText`-style violation lines. -/
def validateJson (path : String) (s : JSchema) (j : Json) : List String :=
  match s with
  | JSchema.mk types nullable required props =>
    if nullable && isNull j then []
    else
      (if !types.isEmpty && !(types.any (fun t => tyMatches t j)) then
        ["data" ++ path ++ " must be " ++ joinSep "," (types.map SchemaTy.name)]
      else []) ++
      (match j with
       | Json.obj fields =>
         (required.filterMap (fun r =>
           match lookupField r fields with
           | some _ => none
           | none =>
             some ("data" ++ path ++ " must have required property '" ++ r ++ "'"))) ++
         validateProps path props fields
       | _ => [])

/-- Validation of the present object fields against the `properties`
subschemas (a `properties` entry constrains a field only when present). -/
def validateProps (path : String) (props : List (String × JSchema))
    (fields : List (String × Json)) : List String :=
  match props with
  | [] => []
  | (k, sub) :: rest =>
    (match lookupField k fields with
     | some v => validateJson (path ++ "/" ++ k) sub v
     | none => []) ++ validateProps path rest fields

end

/-- `validateSchema` from `src/utils/apiTestUtils.ts`:

```ts
const validate = ajv.compile(schema);
const valid = validate(data);
if (!valid) {
  const errorDetails = ajv.errorsText(validate.errors, { separator: '\n' });
  throw new Error(`Schema validation failed: ${errorDetails}\nData: ${JSON.stringify(data, null, 2)}`);
}
return true;
``` -/
def validateSchema (data : Json) (schema : JSchema) : Except Err Bool :=
  let errors := validateJson "" schema data
  match errors with
  | [] => Except.ok true
  | _ =>
    Except.error ⟨"Schema validation failed: " ++ joinSep "\n" errors
      ++ "\nData: " ++ Json.stringify data⟩

/-- `productSchema` from the API schemas module:
`required: ['id','name','description','price','category_id']` with typed
(partly nullable) properties and nested `category`/`brand` object schemas. -/
def productSchema : JSchema :=
  JSchema.mk [SchemaTy.tobject] false
    ["id", "name", "description", "price", "category_id"]
    [("id", JSchema.mk [SchemaTy.tnumber] false [] []),
     ("name", JSchema.mk [SchemaTy.tstring] false [] []),
     ("description", JSchema.mk [SchemaTy.tstring] false [] []),
     ("price", JSchema.mk [SchemaTy.tstring, SchemaTy.tnumber] false [] []),
     ("category_id", JSchema.mk [SchemaTy.tnumber, SchemaTy.tstring] false [] []),
     ("brand_id", JSchema.mk [SchemaTy.tnumber, SchemaTy.tstring] true [] []),
     ("image", JSchema.mk [SchemaTy.tstring] true [] []),
     ("category", JSchema.mk [SchemaTy.tobject] true []
       [("id", JSchema.mk [SchemaTy.tnumber] false [] []),
        ("name", JSchema.mk [SchemaTy.tstring] false [] []),
        ("slug", JSchema.mk [SchemaTy.tstring] false [] [])]),
     ("brand", JSchema.mk [SchemaTy.tobject] true []
       [("id", JSchema.mk [SchemaTy.tnumber] false [] []),
        ("name", JSchema.mk [SchemaTy.tstring] false [] []),
        ("slug", JSchema.mk [SchemaTy.tstring] false [] [])])]

/-! ### The `ApiPage` HTTP wrapper

An HTTP response as the wrapper observes it: its status code, the result of
`response.json()` (`none` when the body is not valid JSON, in which case that
call rejects), the raw `response.text()`, and the headers. -/

/-- An HTTP response, as observed by the wrapper. -/
structure ApiResponse where
  status : Nat
  jsonParse : Option Json
  text : String
  headers : List (String × String)

/-- `ApiPage.validateResponse`:

```ts
const statusCode = response.status();
if (statusCode < 200 || statusCode >= 300) {
  let errorMessage: string;
  try {
    const errorBody = await response.json();
    errorMessage = `API Error (${statusCode}): ${JSON.stringify(errorBody)}`;
  } catch (e) {
    const errorText = await response.text();
    errorMessage = `API Error (${statusCode}): ${errorText || 'No response body'}`;
  }
  throw new Error(errorMessage);
}
``` -/
def validateResponse (r : ApiResponse) : Except Err Unit :=
  if r.status < 200 ∨ 300 ≤ r.status then
    match r.jsonParse with
    | some errorBody =>
      Except.error ⟨"API Error (" ++ toString r.status ++ "): " ++ Json.stringify errorBody⟩
    | none =>
      Except.error ⟨"API Error (" ++ toString r.status ++ "): "
        ++ (if r.text = "" then "No response body" else r.text)⟩
  else Except.ok ()

/-- The result record `{ data, status, headers }` returned by
`ApiPage.get/post/put`. -/
structure ReqResult where
  data : Json
  status : Nat
  headers : List (String × String)

/-- The result record returned by `ApiPage.delete`, whose `data` may be
`null`. -/
structure DeleteResult where
  data : Option Json
  status : Nat
  headers : List (String × String)

/-- The shared response handling of `ApiPage.get`, `ApiPage.post` and
`ApiPage.put` (their `requestFn` bodies are identical after the HTTP call):
optional status validation, then `await response.json()` (which rejects if
the body is not JSON), then optional schema validation, then
`{ data, status, headers }`. -/
def requestOnResponse (r : ApiResponse) (validateStatus : Bool)
    (schema : Option JSchema) : Except Err ReqResult :=
  match (if validateStatus then validateResponse r else Except.ok ()) with
  | Except.error e => Except.error e
  | Except.ok _ =>
    match r.jsonParse with
    | none => Except.error ⟨"SyntaxError: unexpected end of JSON input"⟩
    | some data =>
      match schema with
      | some s =>
        match validateSchema data s with
        | Except.error e => Except.error e
        | Except.ok _ => Except.ok ⟨data, r.status, r.headers⟩
      | none => Except.ok ⟨data, r.status, r.headers⟩

/-- The response handling of `ApiPage.delete`:

```ts
let responseData = null;
try {
  responseData = await response.json();
  if (schema) {
    validateSchema(responseData, schema);
  }
} catch (error) {
  // DELETE responses may not return JSON
}
return { data: responseData, status: response.status(), headers: response.headers() };
```

The `catch` swallows both a failed body parse (then `responseData` is still
`null`) and a `validateSchema` throw (then `responseData` has already been
assigned the parsed body and keeps it). -/
def deleteOnResponse (r : ApiResponse) (validateStatus : Bool)
    (schema : Option JSchema) : Except Err DeleteResult :=
  match (if validateStatus then validateResponse r else Except.ok ()) with
  | Except.error e => Except.error e
  | Except.ok _ =>
    let responseData : Option Json :=
      match r.jsonParse with
      | none => none
      | some data =>
        match schema with
        | some s =>
          match validateSchema data s with
          | Except.error _ => some data
          | Except.ok _ => some data
        | none => some data
    Except.ok ⟨responseData, r.status, r.headers⟩

/-- `assertResponseTime` from `src/utils/apiTestUtils.ts`:

```ts
const startTime = Date.now();
const result = await fn();
const elapsed = Date.now() - startTime;
expect(elapsed, `API response took too long: ${elapsed}ms`).toBeLessThanOrEqual(maxTime);
return result;
```

The operation is modelled by its result and its measured elapsed time.  A
failing Playwright `expect(value, message).toBeLessThanOrEqual(expected)`
throws an assertion error whose message is the custom message followed by the
matcher report, which names the expected bound and the received value. -/
def assertResponseTime {T : Type} (result : T) (elapsed maxTime : Nat) :
    Except Err T :=
  if elapsed ≤ maxTime then Except.ok result
  else
    Except.error ⟨"API response took too long: " ++ toString elapsed
      ++ "ms\n\nExpected: <= " ++ toString maxTime
      ++ "\nReceived: " ++ toString elapsed⟩

/-- `sub` occurs in `s` whenever `s`'s characters split as
`pre ++ sub.data ++ post`. -/
theorem strIncludes_data (s sub : String) (pre post : List Char)
    (h : s.data = pre ++ (sub.data ++ post)) : strIncludes s sub = true := by
  show listContains s.data sub.data = true
  rw [h]
  have := listContains_append_middle pre sub.data post
  simpa [List.append_assoc] using this

/-- The empty string occurs in every string. -/
theorem strIncludes_empty (s : String) : strIncludes s "" = true := by
  show listContains s.data [] = true
  induction s.data with
  | nil => rfl
  | cons c rest ih => simp [listContains, listIsPrefix]

/-- A response with a 2xx status passes `validateResponse`. -/
theorem validateResponse_ok {r : ApiResponse} (h1 : 200 ≤ r.status)
    (h2 : r.status < 300) : validateResponse r = Except.ok () := by
  unfold validateResponse
  rw [if_neg]
  omega

/-- C5: with status validation enabled, a status outside `[200,300)` fails
with an error whose message contains the status code and the stringified
JSON error body (or the raw text body when the body does not parse); a status
inside `[200,300)` passes without error.  In particular a 404 with body
`{error:"User not found"}` yields a message containing `404` and
`User not found`. -/
theorem validateResponse_status_check :
    (∀ r : ApiResponse, 200 ≤ r.status → r.status < 300 →
      validateResponse r = Except.ok ()) ∧
    (∀ r : ApiResponse, r.status < 200 ∨ 300 ≤ r.status →
      ∃ e, validateResponse r = Except.error e ∧
        strIncludes e.message (toString r.status) = true ∧
        (match r.jsonParse with
         | some body => strIncludes e.message (Json.stringify body) = true
         | none => strIncludes e.message r.text = true)) ∧
    (∃ e, validateResponse
        ⟨404, some (Json.obj [("error", Json.str "User not found")]), "", []⟩
        = Except.error e ∧
      strIncludes e.message "404" = true ∧
      strIncludes e.message "User not found" = true) := by
  refine ⟨fun r h1 h2 => validateResponse_ok h1 h2, ?_, ?_⟩
  · intro r h
    unfold validateResponse
    rw [if_pos h]
    cases hp : r.jsonParse with
    | some body =>
      refine ⟨_, rfl, ?_, ?_⟩
      · exact strIncludes_data _ (toString r.status) "API Error (".data
          ("): " ++ Json.stringify body).data
          (by simp [String.data_append, List.append_assoc])
      · simpa [hp] using
          strIncludes_append_right ("API Error (" ++ toString r.status ++ "): ")
            (Json.stringify body)
    | none =>
      refine ⟨_, rfl, ?_, ?_⟩
      · exact strIncludes_data _ (toString r.status) "API Error (".data
          ("): " ++ (if r.text = "" then "No response body" else r.text)).data
          (by simp [String.data_append, List.append_assoc])
      · simp only [hp]
        by_cases ht : r.text = ""
        · rw [ht]
          exact strIncludes_empty _
        · rw [if_neg ht]
          exact strIncludes_append_right
            ("API Error (" ++ toString r.status ++ "): ") r.text
  · exact ⟨_, rfl, by decide, by decide⟩

/-- C5 witness: a 204 response passes; a 500 response with unparseable body
`"boom"` fails with a message containing `500` and `boom`. -/
theorem validateResponse_status_check_witness :
    validateResponse ⟨204, none, "", []⟩ = Except.ok () ∧
    (∃ e, validateResponse ⟨500, none, "boom", []⟩ = Except.error e ∧
      strIncludes e.message (toString (500 : Nat)) = true ∧
      strIncludes e.message "boom" = true) :=
  ⟨validateResponse_status_check.1 ⟨204, none, "", []⟩ (by decide) (by decide),
   validateResponse_status_check.2.1 ⟨500, none, "boom", []⟩ (Or.inr (by decide))⟩

/-- C6: `assertResponseTime` returns the operation's result unchanged when
the elapsed time is within the limit, and otherwise fails with an assertion
error whose message contains both the measured elapsed time and the
configured limit. -/
theorem assertResponseTime_spec :
    (∀ (T : Type) (result : T) (elapsed maxTime : Nat), elapsed ≤ maxTime →
      assertResponseTime result elapsed maxTime = Except.ok result) ∧
    (∀ (T : Type) (result : T) (elapsed maxTime : Nat), maxTime < elapsed →
      ∃ e, assertResponseTime result elapsed maxTime = Except.error e ∧
        strIncludes e.message (toString elapsed) = true ∧
        strIncludes e.message (toString maxTime) = true) := by
  constructor
  · intro T result elapsed maxTime h
    simp [assertResponseTime, h]
  · intro T result elapsed maxTime h
    unfold assertResponseTime
    rw [if_neg (by omega)]
    refine ⟨_, rfl, ?_, ?_⟩
    · exact strIncludes_data _ (toString elapsed) "API response took too long: ".data
        ("ms\n\nExpected: <= " ++ toString maxTime ++ "\nReceived: "
          ++ toString elapsed).data
        (by simp [String.data_append, List.append_assoc])
    · exact strIncludes_data _ (toString maxTime)
        ("API response took too long: ".data ++ (toString elapsed).data
          ++ "ms\n\nExpected: <= ".data)
        ("\nReceived: " ++ toString elapsed).data
        (by simp [String.data_append, List.append_assoc])

/-- C6 witness: 50ms against a 100ms limit succeeds and returns the result;
150ms against 100ms fails with a message containing `150` and `100`. -/
theorem assertResponseTime_spec_witness :
    assertResponseTime (0 : Nat) 50 100 = Except.ok 0 ∧
    ∃ e, assertResponseTime (0 : Nat) 150 100 = Except.error e ∧
      strIncludes e.message (toString (150 : Nat)) = true ∧
      strIncludes e.message (toString (100 : Nat)) = true :=
  ⟨assertResponseTime_spec.1 Nat 0 50 100 (by decide),
   assertResponseTime_spec.2 Nat 0 150 100 (by decide)⟩

/-- C8: a DELETE whose response body fails to parse as JSON raises no error
from the parse: the operation returns `data = null` together with the
response's status and headers. -/
theorem delete_null_body (r : ApiResponse) (schema : Option JSchema)
    (hparse : r.jsonParse = none) (h1 : 200 ≤ r.status) (h2 : r.status < 300) :
    deleteOnResponse r true schema = Except.ok ⟨none, r.status, r.headers⟩ := by
  simp [deleteOnResponse, validateResponse_ok h1 h2, hparse]

/-- C8 witness: a 204 DELETE response with a non-JSON (empty) body yields
`data = null` with the status and headers intact. -/
theorem delete_null_body_witness :
    deleteOnResponse ⟨204, none, "", [("connection", "close")]⟩ true none
      = Except.ok ⟨none, 204, [("connection", "close")]⟩ :=
  delete_null_body ⟨204, none, "", [("connection", "close")]⟩ none rfl
    (by decide) (by decide)

/-- A payload conforming to `productSchema`. -/
def conformingProduct : Json :=
  Json.obj [("id", Json.num 1), ("name", Json.str "Combination Pliers"),
    ("description", Json.str "A tool"), ("price", Json.num 14),
    ("category_id", Json.num 3)]

/-- The same payload with the required `price` property missing. -/
def productMissingPrice : Json :=
  Json.obj [("id", Json.num 1), ("name", Json.str "Combination Pliers"),
    ("description", Json.str "A tool"), ("category_id", Json.num 3)]

/-- A schema mismatch produces the `validateSchema` error whose message joins
all violations and echoes the stringified payload. -/
theorem validateSchema_error (s : JSchema) (d : Json)
    (hne : validateJson "" s d ≠ []) :
    validateSchema d s = Except.error ⟨"Schema validation failed: "
      ++ joinSep "\n" (validateJson "" s d) ++ "\nData: " ++ Json.stringify d⟩ := by
  unfold validateSchema
  cases hval : validateJson "" s d with
  | nil => exact absurd hval hne
  | cons a rest => simp [hval]

/-- C4 counterexample: the claim includes DELETE among the methods for which
a supplied-schema mismatch fails the operation, but `ApiPage.delete` swallows
the `validateSchema` throw in the same `catch` that tolerates body-parse
failures: a 200 DELETE response whose body violates `productSchema` (missing
`price`) succeeds, returning the parsed body. -/
theorem delete_swallows_schema_mismatch :
    validateJson "" productSchema productMissingPrice ≠ [] ∧
    deleteOnResponse ⟨200, some productMissingPrice, "", []⟩ true (some productSchema)
      = Except.ok ⟨some productMissingPrice, 200, []⟩ :=
  ⟨by decide, rfl⟩

/-- C4 (amended): for `get`, `post` and `put` with a schema supplied, a
mismatch fails the operation with an error that enumerates every violated
constraint (`allErrors`) and echoes the offending payload, while a conforming
body succeeds; every missing required property of `productSchema` contributes
its own violation line; `validateSchema` with `productSchema` and a payload
missing `price` throws listing the missing-`price` violation and returns
`true` on a conforming payload; for `delete` the schema error is swallowed by
the body-parse `catch`, so a mismatch does not fail the operation and `data`
keeps the parsed body. -/
theorem schema_validation_behavior :
    (∀ (r : ApiResponse) (s : JSchema) (d : Json), 200 ≤ r.status → r.status < 300 →
      r.jsonParse = some d → validateJson "" s d ≠ [] →
      ∃ e, requestOnResponse r true (some s) = Except.error e ∧
        strIncludes e.message (joinSep "\n" (validateJson "" s d)) = true ∧
        strIncludes e.message (Json.stringify d) = true) ∧
    (∀ (r : ApiResponse) (s : JSchema) (d : Json), 200 ≤ r.status → r.status < 300 →
      r.jsonParse = some d → validateJson "" s d = [] →
      requestOnResponse r true (some s) = Except.ok ⟨d, r.status, r.headers⟩) ∧
    (∀ (fields : List (String × Json)) (req : String),
      req ∈ ["id", "name", "description", "price", "category_id"] →
      lookupField req fields = none →
      ("data must have required property '" ++ req ++ "'")
        ∈ validateJson "" productSchema (Json.obj fields)) ∧
    (∃ e, validateSchema productMissingPrice productSchema = Except.error e ∧
      strIncludes e.message "must have required property 'price'" = true ∧
      strIncludes e.message (Json.stringify productMissingPrice) = true) ∧
    validateSchema conformingProduct productSchema = Except.ok true ∧
    (∀ (r : ApiResponse) (s : JSchema) (d : Json), 200 ≤ r.status → r.status < 300 →
      r.jsonParse = some d →
      deleteOnResponse r true (some s) = Except.ok ⟨some d, r.status, r.headers⟩) := by
  refine ⟨?_, ?_, ?_, ?_, rfl, ?_⟩
  · intro r s d h1 h2 hp hne
    have hflow : requestOnResponse r true (some s) =
        Except.error ⟨"Schema validation failed: "
          ++ joinSep "\n" (validateJson "" s d) ++ "\nData: " ++ Json.stringify d⟩ := by
      simp [requestOnResponse, validateResponse_ok h1 h2, hp, validateSchema_error s d hne]
    refine ⟨_, hflow, ?_, ?_⟩
    · exact strIncludes_data _ _ "Schema validation failed: ".data
        ("\nData: " ++ Json.stringify d).data
        (by simp [String.data_append, List.append_assoc])
    · exact strIncludes_append_right
        ("Schema validation failed: " ++ joinSep "\n" (validateJson "" s d) ++ "\nData: ")
        (Json.stringify d)
  · intro r s d h1 h2 hp hok
    have hvs : validateSchema d s = Except.ok true := by
      unfold validateSchema
      simp [hok]
    simp [requestOnResponse, validateResponse_ok h1 h2, hp, hvs]
  · intro fields req hreq hlook
    have hmem : ("data" ++ "" ++ " must have required property '" ++ req ++ "'")
        ∈ (["id", "name", "description", "price", "category_id"].filterMap (fun r =>
            match lookupField r fields with
            | some _ => none
            | none =>
              some ("data" ++ "" ++ " must have required property '" ++ r ++ "'"))) :=
      List.mem_filterMap.mpr ⟨req, hreq, by rw [hlook]⟩
    exact List.mem_append_right _ (List.mem_append_left _ hmem)
  · exact ⟨_, validateSchema_error productSchema productMissingPrice (by decide),
      by decide, by decide⟩
  · intro r s d h1 h2 hp
    simp only [deleteOnResponse, validateResponse_ok h1 h2, hp]
    cases validateSchema d s <;> simp

/-- C4 witness: a 200 GET/POST/PUT-style response whose body misses `price`
fails schema validation with a message joining all violations and echoing the
payload. -/
theorem schema_validation_behavior_witness :
    ∃ e, requestOnResponse ⟨200, some productMissingPrice, "", []⟩ true (some productSchema)
        = Except.error e ∧
      strIncludes e.message
        (joinSep "\n" (validateJson "" productSchema productMissingPrice)) = true ∧
      strIncludes e.message (Json.stringify productMissingPrice) = true :=
  schema_validation_behavior.1 ⟨200, some productMissingPrice, "", []⟩ productSchema
    productMissingPrice (by decide) (by decide) rfl (by decide)

/-! ### Fallback-selector page-object strategies

`CheckoutPage.proceedToCheckout` tries a fixed priority list of checkout
button selectors — each iteration wrapped in its own `try`/`catch` — and, if
none is clicked, a last-resort pass over prominent buttons wrapped in one
`try`/`catch`; every failure path only logs.  The page is modelled by the
state each selector resolves to (`count`, visibility, whether scrolling or
clicking it throws); `page.waitFor…` waits are modelled as non-throwing, and
screenshots / the final `Promise.race` wait only add their logged lines. -/

/-- The state a candidate selector resolves to on the page. -/
structure ElemState where
  count : Nat
  visible : Bool
  scrollFails : Bool
  clickFails : Bool

/-- The page as `proceedToCheckout` observes it. -/
structure CheckoutWorld where
  elem : String → ElemState
  fallbackButtons : List ElemState
  raceSucceeds : Bool
  screenshotFails : Bool

/-- The fixed priority list of checkout button selectors. -/
def checkoutSelectors : List String :=
  ["[data-test=\"proceed-1\"]",
   "button:has-text(\"Proceed to Checkout\")",
   "button:has-text(\"Checkout\")",
   "a:has-text(\"Proceed to Checkout\")",
   "a:has-text(\"Checkout\")",
   ".checkout-button",
   ".btn-success"]

/-- The `try` body of one loop iteration of `proceedToCheckout`: count check,
scroll (can throw), visibility check, click (can throw).  Returns whether the
button was clicked, plus the lines logged. -/
def checkoutIterBody (s : String) (st : ElemState) : Except Err (Bool × List String) :=
  if 0 < st.count then
    if st.scrollFails then Except.error ⟨"scroll failed"⟩
    else if st.visible then
      if st.clickFails then Except.error ⟨"click failed"⟩
      else Except.ok (true, ["Clicked checkout button using selector: " ++ s])
    else Except.ok (false, ["Checkout button found with " ++ s ++ " but not visible"])
  else Except.ok (false, [])

/-- The selector loop: each iteration's `catch` logs and continues; the first
successful click breaks. -/
def tryCheckoutLoop (w : String → ElemState) : List String → Option String × List String
  | [] => (none, [])
  | s :: rest =>
    match checkoutIterBody s (w s) with
    | Except.ok (true, ls) => (some s, ls)
    | Except.ok (false, ls) =>
      let r := tryCheckoutLoop w rest
      (r.1, ls ++ r.2)
    | Except.error e =>
      let r := tryCheckoutLoop w rest
      (r.1, ("Error clicking " ++ s ++ ": " ++ e.message) :: r.2)

/-- The `try` body of the last-resort pass: click the first visible prominent
button; a throw aborts the whole pass (the `try` wraps the entire `for`). -/
def fallbackBody : List ElemState → Except Err (Bool × List String)
  | [] => Except.ok (false, [])
  | b :: rest =>
    if b.visible then
      if b.clickFails then Except.error ⟨"click failed"⟩
      else Except.ok (true, ["Clicked a prominent button as fallback"])
    else fallbackBody rest

/-- The last-resort pass with its surrounding `catch`, which only logs. -/
def tryFallback (bs : List ElemState) : Bool × List String :=
  match fallbackBody bs with
  | Except.ok r => r
  | Except.error e => (false, ["Error with fallback button approach: " ++ e.message])

/-- The observable outcome of `proceedToCheckout`: which selector (if any)
was clicked in the main loop, whether the last-resort pass clicked, and the
logged lines in order. -/
structure CheckoutOutcome where
  clickedSelector : Option String
  fallbackClicked : Bool
  logs : List String

/-- `CheckoutPage.proceedToCheckout`: initial log and screenshot, the
selector loop, the `!proceedClicked` log plus last-resort pass, the
checkout-page wait race, and the final screenshot.  Every throwing step is
inside a `try`/`catch` (or `.catch`) that only logs, so the method always
returns normally. -/
def proceedToCheckout (w : CheckoutWorld) : CheckoutOutcome :=
  let startLogs := ["Attempting to proceed to checkout..."]
    ++ (if w.screenshotFails then ["Could not take screenshot:"] else [])
  let loopRes := tryCheckoutLoop w.elem checkoutSelectors
  let afterLogs :=
    (if w.raceSucceeds then ["Checkout page loaded"]
     else ["Timed out waiting for checkout page, continuing anyway"])
    ++ (if w.screenshotFails then ["Could not take screenshot:"] else [])
  match loopRes.1 with
  | some s => ⟨some s, false, startLogs ++ loopRes.2 ++ afterLogs⟩
  | none =>
    let fb := tryFallback w.fallbackButtons
    ⟨none, fb.1, startLogs ++ loopRes.2
      ++ ["Could not find or click any checkout button"] ++ fb.2 ++ afterLogs⟩

/-- An element as `filterByCategory` observes it: its locator `count` and
whether acting on it (`check()`/`click()`) throws. -/
structure FElem where
  count : Nat
  actFails : Bool

/-- The page as `filterByCategory` observes it: the category checkbox
(`[data-test="category-…"]`), the `.form-check-label` with matching text, and
the generic `:text("…")` item, in priority order. -/
structure FilterWorld where
  checkbox : FElem
  label : FElem
  textItem : FElem

/-- The outcome of `filterByCategory`: which approach (1–3) acted, if any,
and the logged lines. -/
structure FilterOutcome where
  acted : Option Nat
  logs : List String
deriving DecidableEq, Repr

/-- The single `try` body of `ProductBrowsingPage.filterByCategory`: three
approaches tried in order, each guarded by `count() > 0`, each `return`ing
(or falling through) after acting; a throw anywhere aborts to the `catch`. -/
def filterByCategoryBody (fw : FilterWorld) : Except Err (Option Nat) :=
  if 0 < fw.checkbox.count then
    if fw.checkbox.actFails then Except.error ⟨"check failed"⟩
    else Except.ok (some 1)
  else if 0 < fw.label.count then
    if fw.label.actFails then Except.error ⟨"click failed"⟩
    else Except.ok (some 2)
  else if 0 < fw.textItem.count then
    if fw.textItem.actFails then Except.error ⟨"click failed"⟩
    else Except.ok (some 3)
  else Except.ok none

/-- `ProductBrowsingPage.filterByCategory` with its `catch`, which logs
`Error filtering by category …` and returns. -/
def filterByCategory (fw : FilterWorld) (category : String) : FilterOutcome :=
  match filterByCategoryBody fw with
  | Except.ok acted => ⟨acted, []⟩
  | Except.error e =>
    ⟨none, ["Error filtering by category " ++ category ++ ": " ++ e.message]⟩

/-- A candidate selector "succeeds" when it exists, scrolls, is visible and
clicks without throwing — the first such candidate is the one acted on. -/
def selSucceeds (st : ElemState) : Bool :=
  decide (0 < st.count) && !st.scrollFails && st.visible && !st.clickFails

/-- String append is associative. -/
theorem strAppend_assoc (a b c : String) : a ++ b ++ c = a ++ (b ++ c) :=
  String.ext (by simp [String.data_append, List.append_assoc])

/-- The selector loop clicks exactly the first candidate, in list order, that
exists, scrolls, is visible and clicks without throwing. -/
theorem tryCheckoutLoop_find (w : String → ElemState) (sels : List String) :
    (tryCheckoutLoop w sels).1 = sels.find? (fun s => selSucceeds (w s)) := by
  induction sels with
  | nil => rfl
  | cons s rest ih =>
    by_cases h1 : 0 < (w s).count
    · by_cases h2 : (w s).scrollFails = true
      · simp [tryCheckoutLoop, checkoutIterBody, h1, h2, selSucceeds, ih, List.find?]
      · by_cases h3 : (w s).visible = true
        · by_cases h4 : (w s).clickFails = true
          · simp [tryCheckoutLoop, checkoutIterBody, h1, h2, h3, h4, selSucceeds, ih,
              List.find?]
          · simp [tryCheckoutLoop, checkoutIterBody, h1, h2, h3, h4, selSucceeds,
              List.find?]
        · simp [tryCheckoutLoop, checkoutIterBody, h1, h2, h3, selSucceeds, ih,
            List.find?]
    · simp [tryCheckoutLoop, checkoutIterBody, h1, selSucceeds, ih, List.find?]

/-- The selector clicked by `proceedToCheckout` is the one found by the
selector loop. -/
theorem proceedToCheckout_clicked (w : CheckoutWorld) :
    (proceedToCheckout w).clickedSelector = (tryCheckoutLoop w.elem checkoutSelectors).1 := by
  unfold proceedToCheckout
  cases h : (tryCheckoutLoop w.elem checkoutSelectors).1 <;> simp [h]

/-- C9 counterexample: with every candidate approach absent (all three
locator counts zero), `filterByCategory` returns normally but logs nothing —
the all-candidates-fail path of this page object does not log, contrary to
the claim. -/
theorem filterByCategory_silent_when_absent :
    filterByCategory ⟨⟨0, false⟩, ⟨0, false⟩, ⟨0, false⟩⟩ "Hand Tools"
      = ⟨none, []⟩ := rfl

/-- C9 (amended): candidate selectors are tried in a fixed priority order
with existence (and, in `proceedToCheckout`, visibility) checked before
acting and the first success stopping the search; both operations always
return normally.  When every candidate fails, `proceedToCheckout` logs
`Could not find or click any checkout button`, while `filterByCategory`
returns silently when no candidate matches and logs only when a caught
action error ended the attempt. -/
theorem fallback_selector_strategy :
    (∀ w : CheckoutWorld,
      (proceedToCheckout w).clickedSelector =
        checkoutSelectors.find? (fun s => selSucceeds (w.elem s))) ∧
    (∀ (w : CheckoutWorld) (s : String),
      (proceedToCheckout w).clickedSelector = some s →
      0 < (w.elem s).count ∧ (w.elem s).visible = true) ∧
    (∀ w : CheckoutWorld,
      checkoutSelectors.find? (fun s => selSucceeds (w.elem s)) = none →
      (proceedToCheckout w).clickedSelector = none ∧
      "Could not find or click any checkout button" ∈ (proceedToCheckout w).logs) ∧
    (∀ (fw : FilterWorld) (cat : String),
      (0 < fw.checkbox.count → fw.checkbox.actFails = false →
        filterByCategory fw cat = ⟨some 1, []⟩) ∧
      (fw.checkbox.count = 0 → 0 < fw.label.count → fw.label.actFails = false →
        filterByCategory fw cat = ⟨some 2, []⟩) ∧
      (fw.checkbox.count = 0 → fw.label.count = 0 → 0 < fw.textItem.count →
        fw.textItem.actFails = false → filterByCategory fw cat = ⟨some 3, []⟩) ∧
      (fw.checkbox.count = 0 → fw.label.count = 0 → fw.textItem.count = 0 →
        filterByCategory fw cat = ⟨none, []⟩) ∧
      (0 < fw.checkbox.count → fw.checkbox.actFails = true →
        filterByCategory fw cat =
          ⟨none, ["Error filtering by category " ++ cat ++ ": check failed"]⟩)) := by
  refine ⟨?_, ?_, ?_, ?_⟩
  · intro w
    exact (proceedToCheckout_clicked w).trans (tryCheckoutLoop_find w.elem checkoutSelectors)
  · intro w s h
    rw [proceedToCheckout_clicked, tryCheckoutLoop_find] at h
    have hp := List.find?_some h
    simp only [selSucceeds, Bool.and_eq_true, Bool.not_eq_true', decide_eq_true_eq] at hp
    exact ⟨hp.1.1.1, hp.1.2⟩
  · intro w h
    have hc : (tryCheckoutLoop w.elem checkoutSelectors).1 = none := by
      rw [tryCheckoutLoop_find]
      exact h
    refine ⟨by rw [proceedToCheckout_clicked]; exact hc, ?_⟩
    simp [proceedToCheckout, hc]
  · intro fw cat
    refine ⟨?_, ?_, ?_, ?_, ?_⟩
    · intro h1 h2
      simp [filterByCategory, filterByCategoryBody, h1, h2]
    · intro h1 h2 h3
      have h1' : ¬ 0 < fw.checkbox.count := by omega
      simp [filterByCategory, filterByCategoryBody, h1', h2, h3]
    · intro h1 h2 h3 h4
      have h1' : ¬ 0 < fw.checkbox.count := by omega
      have h2' : ¬ 0 < fw.label.count := by omega
      simp [filterByCategory, filterByCategoryBody, h1', h2', h3, h4]
    · intro h1 h2 h3
      have h1' : ¬ 0 < fw.checkbox.count := by omega
      have h2' : ¬ 0 < fw.label.count := by omega
      have h3' : ¬ 0 < fw.textItem.count := by omega
      simp [filterByCategory, filterByCategoryBody, h1', h2', h3']
    · intro h1 h2
      have hs : (": " : String) ++ "check failed" = ": check failed" := rfl
      simp [filterByCategory, filterByCategoryBody, h1, h2, strAppend_assoc, hs]

/-- C9 witness: on a page where no checkout selector matches at all,
`proceedToCheckout` clicks nothing, logs the all-candidates-failed line, and
returns normally. -/
theorem fallback_selector_strategy_witness :
    (proceedToCheckout ⟨fun _ => ⟨0, false, false, false⟩, [], false, false⟩).clickedSelector
      = none ∧
    "Could not find or click any checkout button"
      ∈ (proceedToCheckout ⟨fun _ => ⟨0, false, false, false⟩, [], false, false⟩).logs :=
  fallback_selector_strategy.2.2.1 ⟨fun _ => ⟨0, false, false, false⟩, [], false, false⟩
    (by decide)
